import Mathlib

/-!
Verification of the AutoTester macro replay engine (`src/runner/index.ts`,
the `runMacro` function and its helpers) against its specification.

The replay engine is shallowly embedded as pure Lean functions.  Browser
interactions (Playwright calls) are abstracted by a `PageEnv` oracle that
fixes, for a given page state, the outcome of each element query, each
visibility/enabled wait, and each raw action.  All control flow, string
sentinels, status classification, counter updates, stop-on-fail
propagation, artifact recording and report assembly are translated
directly from the source.
-/

namespace AutoTester

/-- Locator union from `db/repository.ts`: `data` and `css` carry a CSS
selector string, `xpath` an xpath string, `role` an accessibility role with
an optional accessible name. -/
inductive Locator
  | data (value : String)
  | role (role : String) (name : Option String)
  | css (value : String)
  | xpath (value : String)
deriving DecidableEq

/-- One row of `macro_steps` as returned by `getAllSteps` (rows ordered by
`order_index`; a NULL `locators` column is decoded to the empty list). -/
structure MacroStep where
  id : Nat
  macro_id : Nat
  order_index : Nat
  action_type : String
  locators : List Locator
  value : Option String
  timeouts : Option String
  enabled : Nat
deriving DecidableEq

/-- Step statuses written by the run loop.  The report additionally uses the
string "UNKNOWN" for steps with no persisted result; that value exists only
in the assembled report, not in this stored-status vocabulary. -/
inductive Status
  | PASS
  | FAIL
  | SKIPPED
deriving DecidableEq

/-- The string stored in the `status` column for each status. -/
def Status.str : Status → String
  | .PASS => "PASS"
  | .FAIL => "FAIL"
  | .SKIPPED => "SKIPPED"

/-- One persisted `run_step_results` row, restricted to the columns the
claims are about (timestamps are wall-clock strings and are not modelled). -/
structure StepResult where
  step_id : Nat
  status : Status
  error_message : Option String
  used_locator : Option Locator
  screenshot_path : Option String
deriving DecidableEq

/-- Artifact rows written through `addArtifact` (`type` column values used
by the runner are "screenshot" and "trace"). -/
inductive ArtifactType
  | screenshot
  | trace
deriving DecidableEq

structure Artifact where
  type : ArtifactType
  storage_url : String
deriving DecidableEq

/-- Result of `locator.count()` in `findLocator`: either the query raised
(the catch branch) or returned a match count. -/
inductive QueryRes
  | err
  | count (n : Nat)
deriving DecidableEq

/-- Oracle for one fixed page state.  `query l` is the outcome of
`resolveLocator(page, l).count()`; `interactable l` is the outcome of
`ensureVisibleEnabled` on the first element matched by `l` (`none` means it
returned, `some msg` means it threw `msg`); `act s` is the outcome of the
remaining browser work of step `s` (navigation, scrolling, URL waits,
clicking, filling, text/CSS reads and their value-format checks), `none`
meaning success and `some msg` a thrown error message. -/
structure PageEnv where
  query : Locator → QueryRes
  interactable : Locator → Option String
  act : MacroStep → Option String

/-- `findLocator`: iterate the candidates in stored order; return the first
whose `count()` is positive (the source pairs it with `l.first()`, the first
matching element, which this model identifies with the chosen candidate);
a thrown query or a zero count falls through to the next candidate; `null`
when none matches. -/
def findLocator (env : PageEnv) : List Locator → Option Locator
  | [] => none
  | l :: rest =>
    match env.query l with
    | QueryRes.count (Nat.succ _) => some l
    | _ => findLocator env rest

/-- Whether a candidate currently yields one or more matches. -/
def isHit (env : PageEnv) (l : Locator) : Bool :=
  match env.query l with
  | QueryRes.count (Nat.succ _) => true
  | _ => false

/-- Outcome of executing one enabled step inside the `try` block: a recorded
PASS (with the used locator when the step resolved an element), a thrown
error caught by the `catch` block, or the secret-redaction SKIPPED record. -/
inductive ExecOut
  | pass (used : Option Locator)
  | failure (msg : String)
  | secretSkip (used : Locator)
deriving DecidableEq

/-- Shared locator stage of the `waitFor`/`assert`/element branches: an
empty candidate list throws "No locators for step"; an unresolved list
throws "Locator not found"; otherwise the continuation runs on the used
candidate. -/
def locatorStage (env : PageEnv) (step : MacroStep) (k : Locator → ExecOut) : ExecOut :=
  if step.locators = [] then .failure "No locators for step"
  else
    match findLocator env step.locators with
    | none => .failure "Locator not found"
    | some used => k used

/-- Lift an oracle action outcome to an `ExecOut`. -/
def actOut (env : PageEnv) (step : MacroStep) (used : Option Locator) : ExecOut :=
  match env.act step with
  | none => .pass used
  | some m => .failure m

/-- The action types of the trailing `switch` other than "type" (whose
secret check is modelled explicitly); an action type outside the switch
throws "Unsupported action_type: ...". -/
def switchActions : List String :=
  ["click", "dblclick", "hover", "clickAt", "assertCss", "assertCursor",
   "select", "check", "uncheck"]

/-- Execution of one enabled step, translating the dispatch inside the
`try` block of `runMacro`.  `navigation` first rejects an empty target URL;
`waitFor`/`assert` with a value prefixed "url:" wait on the URL (no used
locator is recorded on that branch); all other branches resolve an element
through `locatorStage` then `ensureVisibleEnabled`; a "type" step whose
defaulted value equals the sentinel "__SECRET__" yields the secret-skip
outcome after that resolution; action-specific work (including value-format
validation such as the coordinate and css-expectation parsers) is the
the oracle field `act`. -/
def execStep (env : PageEnv) (step : MacroStep) : ExecOut :=
  if step.action_type = "navigation" then
    if step.value.getD "" = "" then .failure "Missing navigation URL"
    else actOut env step none
  else if step.action_type = "scrollTo" then
    actOut env step none
  else if step.action_type = "waitFor" then
    if (step.value.getD "").startsWith "url:" then actOut env step none
    else
      locatorStage env step fun used =>
        match env.interactable used with
        | some m => .failure m
        | none => .pass (some used)
  else if step.action_type = "assert" then
    if (step.value.getD "").startsWith "url:" then actOut env step none
    else
      locatorStage env step fun used =>
        match env.interactable used with
        | some m => .failure m
        | none => actOut env step (some used)
  else
    locatorStage env step fun used =>
      match env.interactable used with
      | some m => .failure m
      | none =>
        if step.action_type = "type" then
          if step.value.getD "" = "__SECRET__" then .secretSkip used
          else actOut env step (some used)
        else if switchActions.contains step.action_type then
          actOut env step (some used)
        else .failure ("Unsupported action_type: " ++ step.action_type)

/-- Screenshot file path recorded on a step failure
(`path.join(reportsDir, run-RUNID-step-ORDER.png)`). -/
def screenshotFile (reportsDir : String) (runId : Nat) (orderIndex : Nat) : String :=
  reportsDir ++ "/run-" ++ toString runId ++ "-step-" ++ toString orderIndex ++ ".png"

/-- The live `runSummary` object (`total` is set to the step count up
front, the other counters start at zero and are incremented in the loop;
`tracePath` is filled in after the loop only on failure). -/
structure Summary where
  total : Nat
  passed : Nat
  failed : Nat
  skipped : Nat
  tracePath : Option String
deriving DecidableEq

/-- StepResult written for a step whose `enabled` flag is 0 when reached in
normal iteration: SKIPPED, no message, nothing else recorded. -/
def disabledResult (s : MacroStep) : StepResult :=
  { step_id := s.id, status := .SKIPPED, error_message := none,
    used_locator := none, screenshot_path := none }

/-- StepResult written for a remaining step during stop-on-fail
propagation: SKIPPED with message "not executed (stop-on-fail)" when the
step was enabled, SKIPPED with no message when it was already disabled. -/
def stopSkipResult (s : MacroStep) : StepResult :=
  if s.enabled = 0 then disabledResult s
  else
    { step_id := s.id, status := .SKIPPED,
      error_message := some "not executed (stop-on-fail)",
      used_locator := none, screenshot_path := none }

/-- The inner `for j` loop that marks every remaining step on
stop-on-fail. -/
def markRest (rest : List MacroStep) : List StepResult :=
  rest.map stopSkipResult

/-- Output of the step loop: the persisted StepResults, in write order, the
artifacts added inside the loop, the final counters, and the `failed`
boolean flag. -/
structure LoopOut where
  results : List StepResult
  artifacts : List Artifact
  summary : Summary
  anyFailed : Bool
deriving DecidableEq

/-- The main `for i` loop of `runMacro` over the step list (counters and the
`failed` flag are threaded through; results and artifacts are emitted in
order).  A disabled step records SKIPPED and continues; an executed step
records PASS / the secret SKIPPED / FAIL with the caught message and a
screenshot path; on FAIL a screenshot artifact is always added, and when
`stopOnFail` holds the remaining steps are marked via `markRest`, each
incrementing the skipped counter, and iteration breaks. -/
def runSteps (env : PageEnv) (stopOnFail : Bool) (runId : Nat) (reportsDir : String) :
    List MacroStep → Summary → Bool → LoopOut
  | [], sum, fl => { results := [], artifacts := [], summary := sum, anyFailed := fl }
  | step :: rest, sum, fl =>
    if step.enabled = 0 then
      let o := runSteps env stopOnFail runId reportsDir rest
        { sum with skipped := sum.skipped + 1 } fl
      { o with results := disabledResult step :: o.results }
    else
      match execStep env step with
      | .pass used =>
        let o := runSteps env stopOnFail runId reportsDir rest
          { sum with passed := sum.passed + 1 } fl
        { o with results :=
            { step_id := step.id, status := .PASS, error_message := none,
              used_locator := used, screenshot_path := none } :: o.results }
      | .secretSkip used =>
        let o := runSteps env stopOnFail runId reportsDir rest
          { sum with skipped := sum.skipped + 1 } fl
        { o with results :=
            { step_id := step.id, status := .SKIPPED,
              error_message := some "secret value skipped",
              used_locator := some used, screenshot_path := none } :: o.results }
      | .failure msg =>
        let shot := screenshotFile reportsDir runId step.order_index
        let fr : StepResult :=
          { step_id := step.id, status := .FAIL, error_message := some msg,
            used_locator := none, screenshot_path := some shot }
        let sa : Artifact := { type := .screenshot, storage_url := shot }
        if stopOnFail then
          let sum2 : Summary :=
            { sum with failed := sum.failed + 1, skipped := sum.skipped + rest.length }
          { results := fr :: markRest rest,
            artifacts := [sa],
            summary := sum2,
            anyFailed := true }
        else
          let o := runSteps env stopOnFail runId reportsDir rest
            { sum with failed := sum.failed + 1 } true
          { o with results := fr :: o.results, artifacts := sa :: o.artifacts }

/-- One entry of the `steps` array of the JSON report. -/
structure ReportStep where
  step_id : Nat
  order_index : Nat
  action_type : String
  status : String
  error_message : Option String
  screenshot_path : Option String
  locators : List Locator
  value : Option String
  enabled : Nat
  timeouts : Option String
deriving DecidableEq

/-- The `resultById` map lookup: the map is built by inserting every
persisted result keyed by `step_id`, so a later result for the same id
overwrites an earlier one; `none` when no result carries the id. -/
def lookupById (rs : List StepResult) (id : Nat) : Option StepResult :=
  rs.foldl (fun acc r => if r.step_id = id then some r else acc) none

/-- One report entry: field-by-field translation of the object literal in
the `steps.map` callback; a step with no persisted result gets status
"UNKNOWN" and null error message / screenshot path. -/
def buildReportStep (rs : List StepResult) (s : MacroStep) : ReportStep :=
  match lookupById rs s.id with
  | some r =>
    { step_id := s.id, order_index := s.order_index, action_type := s.action_type,
      status := r.status.str, error_message := r.error_message,
      screenshot_path := r.screenshot_path, locators := s.locators,
      value := s.value, enabled := s.enabled, timeouts := s.timeouts }
  | none =>
    { step_id := s.id, order_index := s.order_index, action_type := s.action_type,
      status := "UNKNOWN", error_message := none,
      screenshot_path := none, locators := s.locators,
      value := s.value, enabled := s.enabled, timeouts := s.timeouts }

/-- The JSON report object (fields relevant to the claims; `artifacts` is
present and holds the trace path exactly when a trace was saved). -/
structure RunReport where
  runId : Nat
  macroId : Nat
  macroName : String
  envName : String
  browser : String
  headless : Bool
  status : String
  summary : Summary
  steps : List ReportStep
  traceArtifact : Option String
deriving DecidableEq

/-- Everything observable from the part of `runMacro` that runs once the
macro, its steps and the browser session are in hand: the written report,
the persisted StepResults, the artifact rows, and the status passed to
`finishRun`. -/
structure CoreOut where
  report : RunReport
  results : List StepResult
  artifacts : List Artifact
  finishStatus : String
deriving DecidableEq

/-- The `runSummary` object as initialised before the loop: `total` is the
number of steps, the counters are zero. -/
def initSummary (steps : List MacroStep) : Summary :=
  { total := steps.length, passed := 0, failed := 0, skipped := 0, tracePath := none }

/-- The body of `runMacro` from summary initialisation to report writing:
run the loop from zeroed counters and a false `failed` flag; stop tracing,
saving `run-RUNID.zip` and adding a trace artifact exactly when the flag is
set; finish the run FAIL/PASS accordingly; assemble the report steps from
the persisted results by step id. -/
def runMacroCore (env : PageEnv) (stopOnFail : Bool) (runId : Nat) (reportsDir : String)
    (macroId : Nat) (macroName envName browserName : String) (headless : Bool)
    (steps : List MacroStep) : CoreOut :=
  let o := runSteps env stopOnFail runId reportsDir steps (initSummary steps) false
  let tracePath : Option String :=
    if o.anyFailed then some (reportsDir ++ "/run-" ++ toString runId ++ ".zip") else none
  let artifacts := o.artifacts ++
    (match tracePath with
     | some p => [({ type := .trace, storage_url := p } : Artifact)]
     | none => [])
  let status := if o.anyFailed then "FAIL" else "PASS"
  { report :=
      { runId := runId, macroId := macroId, macroName := macroName,
        envName := envName, browser := browserName, headless := headless,
        status := status,
        summary := { o.summary with tracePath := tracePath },
        steps := steps.map (buildReportStep o.results),
        traceArtifact := tracePath },
    results := o.results,
    artifacts := artifacts,
    finishStatus := status }

/-- Environment entry of `envs.json`. -/
structure EnvConfig where
  baseURL : Option String
  browser : Option String
  headless : Option Bool
  timeoutStep : Option Nat
  timeoutGlobal : Option Nat
deriving DecidableEq

/-- State of the `envs.json` file: missing, unreadable/unparsable, or
parsed into named entries. -/
inductive EnvsFile
  | absent
  | invalid
  | parsed (entries : List (String × EnvConfig))

/-- Result shape of `loadEnvConfig`. -/
structure EnvLoadResult where
  config : Option EnvConfig
  error : Option String
deriving DecidableEq

/-- Key lookup in the parsed file (`envName in parsed`). -/
def lookupEnv (entries : List (String × EnvConfig)) (name : String) : Option EnvConfig :=
  (entries.find? (fun e => e.1 = name)).map (fun e => e.2)

/-- `loadEnvConfig`: a missing file yields no config and no error; an
unreadable or unparsable file yields the error "invalid envs.json"; a
parsed file lacking the requested name yields an error naming the
environment (the source quotes the name; the quotes are elided here);
otherwise the entry is returned. -/
def loadEnvConfig (file : EnvsFile) (envName : String) : EnvLoadResult :=
  match file with
  | .absent => { config := none, error := none }
  | .invalid => { config := none, error := some "invalid envs.json" }
  | .parsed entries =>
    match lookupEnv entries envName with
    | none =>
      { config := none,
        error := some ("env " ++ envName ++ " not found in envs.json") }
    | some cfg => { config := some cfg, error := none }

/-- The macro row used by the runner. -/
structure MacroRec where
  id : Nat
  name : String
  base_url : Option String
deriving DecidableEq

/-- JavaScript `a ?? b` on optional values. -/
def orElseO {α : Type} (a b : Option α) : Option α :=
  match a with
  | some x => some x
  | none => b

/-- Observable trace of one `runMacro` invocation: whether the browser was
launched, whether `context.close()`/`browser.close()` (which also release
the tracing resource) were reached, whether a non-zero process exit code
results, the configuration error printed on an abort path, and the core
output when the run reached the step loop. -/
structure RunTrace where
  launched : Bool
  closed : Bool
  exitNonZero : Bool
  errorMsg : Option String
  out : Option CoreOut
deriving DecidableEq

/-- Whole-`runMacro` control flow (after macro-id parsing): environment
loading errors, a missing macro and an empty step list abort with exit code
1 before the browser is launched; then the browser is launched and tracing
started; if a base URL is resolved (CLI override, else environment config,
else the macro record) and the initial `page.goto` rejects, the exception
propagates out of `runMacro` with the browser never closed (there is no
surrounding try/finally) and the process dies non-zero on the unhandled
rejection; otherwise the loop and report run to completion, the browser is
closed, and the exit code is non-zero exactly when the run failed. -/
def runMacroModel (file : EnvsFile) (envOpt : Option String)
    (macroRow : Option MacroRec) (steps : List MacroStep)
    (env : PageEnv) (stopOnFail : Bool)
    (baseUrlOpt : Option String) (headlessOpt : Option Bool)
    (initialNavThrows : Bool)
    (runId : Nat) (reportsDir : String) : RunTrace :=
  let envName := envOpt.getD "dev"
  let er := loadEnvConfig file envName
  match er.error with
  | some m =>
    { launched := false, closed := false, exitNonZero := true,
      errorMsg := some m, out := none }
  | none =>
    match macroRow with
    | none =>
      { launched := false, closed := false, exitNonZero := true,
        errorMsg := some "Macro not found", out := none }
    | some mac =>
      if steps.length = 0 then
        { launched := false, closed := false, exitNonZero := true,
          errorMsg := some "No steps found for macro", out := none }
      else
        let browserName := (er.config.bind (fun c => c.browser)).getD "chromium"
        let headless := (orElseO headlessOpt (er.config.bind (fun c => c.headless))).getD true
        let baseUrl := orElseO baseUrlOpt
          (orElseO (er.config.bind (fun c => c.baseURL)) mac.base_url)
        if baseUrl.isSome && initialNavThrows then
          { launched := true, closed := false, exitNonZero := true,
            errorMsg := none, out := none }
        else
          let out := runMacroCore env stopOnFail runId reportsDir
            mac.id mac.name envName browserName headless steps
          { launched := true, closed := true,
            exitNonZero := out.report.status = "FAIL",
            errorMsg := none, out := some out }

/-! ### Helper lemmas about the step loop -/

/-- Number of persisted results carrying a given status. -/
def countStatus (st : Status) (rs : List StepResult) : Nat :=
  rs.countP (fun r => r.status == st)

theorem countStatus_nil (st : Status) : countStatus st [] = 0 := rfl

theorem countStatus_cons (st : Status) (r : StepResult) (rs : List StepResult) :
    countStatus st (r :: rs) = countStatus st rs + (if r.status = st then 1 else 0) := by
  simp [countStatus, List.countP_cons, beq_iff_eq]

theorem stopSkipResult_status (s : MacroStep) : (stopSkipResult s).status = .SKIPPED := by
  unfold stopSkipResult
  split <;> rfl

theorem markRest_length (rest : List MacroStep) : (markRest rest).length = rest.length :=
  List.length_map rest stopSkipResult

theorem countStatus_markRest (st : Status) (rest : List MacroStep) :
    countStatus st (markRest rest) = if st = .SKIPPED then rest.length else 0 := by
  induction rest with
  | nil => simp [markRest, countStatus_nil]
  | cons s rs ih =>
    simp only [markRest, List.map_cons, countStatus_cons, stopSkipResult_status] at *
    rcases st <;> simp_all

theorem status_cases (st : Status) : st = .PASS ∨ st = .FAIL ∨ st = .SKIPPED := by
  rcases st <;> simp

theorem countStatus_total (rs : List StepResult) :
    countStatus .PASS rs + countStatus .FAIL rs + countStatus .SKIPPED rs = rs.length := by
  induction rs with
  | nil => rfl
  | cons r rest ih =>
    rcases status_cases r.status with h | h | h <;>
      simp [countStatus_cons, h, ih] <;> omega

/-- Unfolding equations for `runSteps`, one per branch of the loop body. -/
theorem runSteps_nil (env : PageEnv) (stop : Bool) (rid : Nat) (dir : String)
    (sum : Summary) (fl : Bool) :
    runSteps env stop rid dir [] sum fl
      = { results := [], artifacts := [], summary := sum, anyFailed := fl } := rfl

theorem runSteps_cons_disabled (env : PageEnv) (stop : Bool) (rid : Nat) (dir : String)
    (s : MacroStep) (rest : List MacroStep) (sum : Summary) (fl : Bool)
    (he : s.enabled = 0) :
    runSteps env stop rid dir (s :: rest) sum fl
      = (let o := runSteps env stop rid dir rest { sum with skipped := sum.skipped + 1 } fl
         { o with results := disabledResult s :: o.results }) := by
  simp [runSteps, he, disabledResult]

theorem runSteps_cons_pass (env : PageEnv) (stop : Bool) (rid : Nat) (dir : String)
    (s : MacroStep) (rest : List MacroStep) (sum : Summary) (fl : Bool)
    (used : Option Locator)
    (he : ¬s.enabled = 0) (hex : execStep env s = .pass used) :
    runSteps env stop rid dir (s :: rest) sum fl
      = (let o := runSteps env stop rid dir rest { sum with passed := sum.passed + 1 } fl
         { o with results :=
             { step_id := s.id, status := .PASS, error_message := none,
               used_locator := used, screenshot_path := none } :: o.results }) := by
  simp [runSteps, he, hex]

theorem runSteps_cons_secret (env : PageEnv) (stop : Bool) (rid : Nat) (dir : String)
    (s : MacroStep) (rest : List MacroStep) (sum : Summary) (fl : Bool)
    (used : Locator)
    (he : ¬s.enabled = 0) (hex : execStep env s = .secretSkip used) :
    runSteps env stop rid dir (s :: rest) sum fl
      = (let o := runSteps env stop rid dir rest { sum with skipped := sum.skipped + 1 } fl
         { o with results :=
             { step_id := s.id, status := .SKIPPED,
               error_message := some "secret value skipped",
               used_locator := some used, screenshot_path := none } :: o.results }) := by
  simp [runSteps, he, hex]

theorem runSteps_cons_fail_stop (env : PageEnv) (rid : Nat) (dir : String)
    (s : MacroStep) (rest : List MacroStep) (sum : Summary) (fl : Bool)
    (msg : String)
    (he : ¬s.enabled = 0) (hex : execStep env s = .failure msg) :
    runSteps env true rid dir (s :: rest) sum fl
      = { results :=
            { step_id := s.id, status := .FAIL, error_message := some msg,
              used_locator := none,
              screenshot_path := some (screenshotFile dir rid s.order_index) }
              :: markRest rest,
          artifacts := [{ type := .screenshot,
                          storage_url := screenshotFile dir rid s.order_index }],
          summary := { sum with failed := sum.failed + 1, skipped := sum.skipped + rest.length },
          anyFailed := true } := by
  simp [runSteps, he, hex]

theorem runSteps_cons_fail_go (env : PageEnv) (rid : Nat) (dir : String)
    (s : MacroStep) (rest : List MacroStep) (sum : Summary) (fl : Bool)
    (msg : String)
    (he : ¬s.enabled = 0) (hex : execStep env s = .failure msg) :
    runSteps env false rid dir (s :: rest) sum fl
      = (let o := runSteps env false rid dir rest { sum with failed := sum.failed + 1 } true
         { o with
             results :=
               { step_id := s.id, status := .FAIL, error_message := some msg,
                 used_locator := none,
                 screenshot_path := some (screenshotFile dir rid s.order_index) }
                 :: o.results,
             artifacts := { type := .screenshot,
                            storage_url := screenshotFile dir rid s.order_index }
                 :: o.artifacts }) := by
  simp [runSteps, he, hex]

theorem beq_skipped_fail : (Status.SKIPPED == Status.FAIL) = false := rfl

theorem beq_pass_fail : (Status.PASS == Status.FAIL) = false := rfl

theorem beq_fail_fail : (Status.FAIL == Status.FAIL) = true := rfl

theorem runSteps_length (env : PageEnv) (stop : Bool) (rid : Nat) (dir : String) :
    ∀ (steps : List MacroStep) (sum : Summary) (fl : Bool),
      (runSteps env stop rid dir steps sum fl).results.length = steps.length := by
  intro steps
  induction steps with
  | nil => intro sum fl; simp [runSteps_nil]
  | cons s rest ih =>
    intro sum fl
    by_cases he : s.enabled = 0
    · rw [runSteps_cons_disabled env stop rid dir s rest sum fl he]
      simp [ih]
    · cases hex : execStep env s with
      | pass used =>
        rw [runSteps_cons_pass env stop rid dir s rest sum fl used he hex]
        simp [ih]
      | secretSkip used =>
        rw [runSteps_cons_secret env stop rid dir s rest sum fl used he hex]
        simp [ih]
      | failure msg =>
        cases stop with
        | true =>
          rw [runSteps_cons_fail_stop env rid dir s rest sum fl msg he hex]
          simp [markRest_length]
        | false =>
          rw [runSteps_cons_fail_go env rid dir s rest sum fl msg he hex]
          simp [ih]

theorem runSteps_counts (env : PageEnv) (stop : Bool) (rid : Nat) (dir : String) :
    ∀ (steps : List MacroStep) (sum : Summary) (fl : Bool),
      (runSteps env stop rid dir steps sum fl).summary.passed
          = sum.passed + countStatus .PASS (runSteps env stop rid dir steps sum fl).results ∧
        (runSteps env stop rid dir steps sum fl).summary.failed
          = sum.failed + countStatus .FAIL (runSteps env stop rid dir steps sum fl).results ∧
        (runSteps env stop rid dir steps sum fl).summary.skipped
          = sum.skipped + countStatus .SKIPPED (runSteps env stop rid dir steps sum fl).results ∧
        (runSteps env stop rid dir steps sum fl).summary.total = sum.total ∧
        (runSteps env stop rid dir steps sum fl).summary.tracePath = sum.tracePath := by
  intro steps
  induction steps with
  | nil => intro sum fl; simp [runSteps_nil, countStatus_nil]
  | cons s rest ih =>
    intro sum fl
    by_cases he : s.enabled = 0
    · rw [runSteps_cons_disabled env stop rid dir s rest sum fl he]
      have h := ih { sum with skipped := sum.skipped + 1 } fl
      simp only [countStatus_cons, disabledResult] at *
      refine ⟨?_, ?_, ?_, ?_, ?_⟩ <;> simp_all <;> omega
    · cases hex : execStep env s with
      | pass used =>
        rw [runSteps_cons_pass env stop rid dir s rest sum fl used he hex]
        have h := ih { sum with passed := sum.passed + 1 } fl
        simp only [countStatus_cons] at *
        refine ⟨?_, ?_, ?_, ?_, ?_⟩ <;> simp_all <;> omega
      | secretSkip used =>
        rw [runSteps_cons_secret env stop rid dir s rest sum fl used he hex]
        have h := ih { sum with skipped := sum.skipped + 1 } fl
        simp only [countStatus_cons] at *
        refine ⟨?_, ?_, ?_, ?_, ?_⟩ <;> simp_all <;> omega
      | failure msg =>
        cases stop with
        | true =>
          rw [runSteps_cons_fail_stop env rid dir s rest sum fl msg he hex]
          refine ⟨?_, ?_, ?_, ?_, ?_⟩ <;>
            simp [countStatus_cons, countStatus_markRest] <;> omega
        | false =>
          rw [runSteps_cons_fail_go env rid dir s rest sum fl msg he hex]
          have h := ih { sum with failed := sum.failed + 1 } true
          simp only [countStatus_cons] at *
          refine ⟨?_, ?_, ?_, ?_, ?_⟩ <;> simp_all <;> omega

theorem runSteps_flag (env : PageEnv) (stop : Bool) (rid : Nat) (dir : String) :
    ∀ (steps : List MacroStep) (sum : Summary) (fl : Bool),
      (runSteps env stop rid dir steps sum fl).anyFailed
        = (fl || (runSteps env stop rid dir steps sum fl).results.any
            (fun r => r.status == .FAIL)) := by
  intro steps
  induction steps with
  | nil => intro sum fl; simp [runSteps_nil]
  | cons s rest ih =>
    intro sum fl
    by_cases he : s.enabled = 0
    · rw [runSteps_cons_disabled env stop rid dir s rest sum fl he]
      simp [ih, disabledResult, beq_skipped_fail]
    · cases hex : execStep env s with
      | pass used =>
        rw [runSteps_cons_pass env stop rid dir s rest sum fl used he hex]
        simp [ih, beq_pass_fail]
      | secretSkip used =>
        rw [runSteps_cons_secret env stop rid dir s rest sum fl used he hex]
        simp [ih, beq_skipped_fail]
      | failure msg =>
        cases stop with
        | true =>
          rw [runSteps_cons_fail_stop env rid dir s rest sum fl msg he hex]
          simp [beq_fail_fail]
        | false =>
          rw [runSteps_cons_fail_go env rid dir s rest sum fl msg he hex]
          simp [ih, beq_fail_fail]

theorem runSteps_artifacts (env : PageEnv) (stop : Bool) (rid : Nat) (dir : String) :
    ∀ (steps : List MacroStep) (sum : Summary) (fl : Bool),
      (runSteps env stop rid dir steps sum fl).artifacts.all
        (fun a => a.type == .screenshot) = true := by
  intro steps
  induction steps with
  | nil => intro sum fl; simp [runSteps_nil]
  | cons s rest ih =>
    intro sum fl
    by_cases he : s.enabled = 0
    · rw [runSteps_cons_disabled env stop rid dir s rest sum fl he]
      simp [ih]
    · cases hex : execStep env s with
      | pass used =>
        rw [runSteps_cons_pass env stop rid dir s rest sum fl used he hex]
        simp [ih]
      | secretSkip used =>
        rw [runSteps_cons_secret env stop rid dir s rest sum fl used he hex]
        simp [ih]
      | failure msg =>
        cases stop with
        | true =>
          rw [runSteps_cons_fail_stop env rid dir s rest sum fl msg he hex]
          simp
        | false =>
          rw [runSteps_cons_fail_go env rid dir s rest sum fl msg he hex]
          have h := ih { sum with failed := sum.failed + 1 } true
          simp only [List.all_eq_true] at h ⊢
          simp_all

/-! ### Locator resolution lemmas -/

theorem findLocator_eq_find (env : PageEnv) :
    ∀ cands : List Locator, findLocator env cands = cands.find? (isHit env) := by
  intro cands
  induction cands with
  | nil => rfl
  | cons l rest ih =>
    simp only [findLocator, List.find?_cons]
    cases h : env.query l with
    | err => simp [isHit, h, ih]
    | count n =>
      cases n with
      | zero => simp [isHit, h, ih]
      | succ m => simp [isHit, h]

theorem findLocator_congr (env env2 : PageEnv) :
    ∀ cands : List Locator, (∀ c ∈ cands, env2.query c = env.query c) →
      findLocator env2 cands = findLocator env cands := by
  intro cands
  induction cands with
  | nil => intro _; rfl
  | cons l rest ih =>
    intro hq
    have hl : env2.query l = env.query l := hq l (by simp)
    simp only [findLocator, hl]
    cases h : env.query l with
    | err => exact ih (fun c hc => hq c (by simp [hc]))
    | count n =>
      cases n with
      | zero => exact ih (fun c hc => hq c (by simp [hc]))
      | succ m => rfl

theorem execStep_locator_not_found (env : PageEnv) (step : MacroStep)
    (hna : step.action_type ≠ "navigation") (hsc : step.action_type ≠ "scrollTo")
    (hurl : (step.value.getD "").startsWith "url:" = false)
    (hne : step.locators ≠ [])
    (hfind : findLocator env step.locators = none) :
    execStep env step = .failure "Locator not found" := by
  by_cases hw : step.action_type = "waitFor" <;>
    by_cases ha : step.action_type = "assert" <;>
      simp_all [execStep, locatorStage]

/-! ### Sample data used by witnesses and counterexamples -/

/-- Page state where every candidate matches one element and every action
succeeds. -/
def envAllPass : PageEnv :=
  { query := fun _ => .count 1, interactable := fun _ => none, act := fun _ => none }

/-- Page state where every candidate matches but the action of the step
with the given id throws "boom". -/
def envFailOn (bad : Nat) : PageEnv :=
  { query := fun _ => .count 1, interactable := fun _ => none,
    act := fun s => if s.id = bad then some "boom" else none }

/-- Page state where no candidate matches anything. -/
def envNoHit : PageEnv :=
  { query := fun _ => .count 0, interactable := fun _ => none, act := fun _ => none }

def locA : Locator := .css "#a"

def mkStep (i : Nat) (action : String) (v : Option String) (en : Nat) : MacroStep :=
  { id := i, macro_id := 1, order_index := i, action_type := action,
    locators := [locA], value := v, timeouts := none, enabled := en }

def macroW : MacroRec := { id := 1, name := "m", base_url := none }

/-! ### Claims -/

/-- C3: locator resolution iterates the candidates strictly in stored
order and selects the first candidate whose query yields one or more
matches; zero-match candidates and candidates whose query raises are
silently skipped; resolution depends only on the query outcomes of the
candidates (hence is deterministic for a fixed page state and candidate
list); and a step that resolves elements (not navigation or scrollTo, and
not a URL-keyed waitFor/assert) whose candidate list is non-empty but
unresolved fails with "Locator not found". -/
theorem findLocator_priority_deterministic :
    (∀ (env : PageEnv) (cands : List Locator),
        findLocator env cands = cands.find? (isHit env)) ∧
    (∀ (env env2 : PageEnv) (cands : List Locator),
        (∀ c ∈ cands, env2.query c = env.query c) →
        findLocator env2 cands = findLocator env cands) ∧
    (∀ (env : PageEnv) (step : MacroStep),
        step.action_type ≠ "navigation" → step.action_type ≠ "scrollTo" →
        (step.value.getD "").startsWith "url:" = false →
        step.locators ≠ [] → findLocator env step.locators = none →
        execStep env step = .failure "Locator not found") :=
  ⟨findLocator_eq_find, findLocator_congr, execStep_locator_not_found⟩

/-- Witness for C3 at a concrete click step with a single unresolved
candidate. -/
theorem findLocator_priority_deterministic_witness :
    execStep envNoHit (mkStep 1 "click" none 1) = .failure "Locator not found" := by
  exact findLocator_priority_deterministic.2.2 envNoHit (mkStep 1 "click" none 1)
    (by decide) (by decide) (by decide) (by decide) (by decide)

/-- C5: a step whose `enabled` flag is 0 when it is reached in normal
iteration (it is the next step the loop processes) produces a SKIPPED
StepResult with no error message and is not executed, for every page state
and independently of the stop-on-fail setting. -/
theorem disabled_step_skipped_no_message (env : PageEnv) (stop : Bool) (rid : Nat)
    (dir : String) (s : MacroStep) (rest : List MacroStep) (sum : Summary) (fl : Bool)
    (he : s.enabled = 0) :
    (runSteps env stop rid dir (s :: rest) sum fl).results.head? = some (disabledResult s) ∧
    (disabledResult s).status = .SKIPPED ∧
    (disabledResult s).error_message = none := by
  rw [runSteps_cons_disabled env stop rid dir s rest sum fl he]
  simp [disabledResult]

/-- Witness for C5 at a concrete disabled click step. -/
theorem disabled_step_skipped_no_message_witness :
    (runSteps envAllPass true 1 "reports" [mkStep 2 "click" none 0]
        (initSummary [mkStep 2 "click" none 0]) false).results.head?
        = some (disabledResult (mkStep 2 "click" none 0)) ∧
    (disabledResult (mkStep 2 "click" none 0)).status = .SKIPPED ∧
    (disabledResult (mkStep 2 "click" none 0)).error_message = none :=
  disabled_step_skipped_no_message envAllPass true 1 "reports"
    (mkStep 2 "click" none 0) [] (initSummary [mkStep 2 "click" none 0]) false (by decide)

/-- C1: over a non-empty step list, the run records exactly one StepResult
per step — the persisted result list has the same length as the step list —
and the live counters satisfy passed + failed + skipped = total = number of
steps, regardless of stop-on-fail, failures, or disabled steps. -/
theorem run_total_accounting (env : PageEnv) (stop : Bool) (rid : Nat) (dir : String)
    (mid : Nat) (mname ename bname : String) (hl : Bool)
    (steps : List MacroStep) (hne : steps ≠ []) :
    (runMacroCore env stop rid dir mid mname ename bname hl steps).results.length
        = steps.length ∧
    (runMacroCore env stop rid dir mid mname ename bname hl steps).report.summary.total
        = steps.length ∧
    (runMacroCore env stop rid dir mid mname ename bname hl steps).report.summary.passed
        + (runMacroCore env stop rid dir mid mname ename bname hl steps).report.summary.failed
        + (runMacroCore env stop rid dir mid mname ename bname hl steps).report.summary.skipped
      = (runMacroCore env stop rid dir mid mname ename bname hl steps).report.summary.total := by
  have hlen := runSteps_length env stop rid dir steps (initSummary steps) false
  have hc := runSteps_counts env stop rid dir steps (initSummary steps) false
  have ht := countStatus_total (runSteps env stop rid dir steps (initSummary steps) false).results
  obtain ⟨h1, h2, h3, h4, h5⟩ := hc
  simp only [runMacroCore, initSummary] at *
  refine ⟨hlen, ?_, ?_⟩ <;> simp_all <;> omega

/-- Witness for C1: a two-step run (one passing click, one failing click)
with stop-on-fail accounts for both steps. -/
theorem run_total_accounting_witness :
    (runMacroCore (envFailOn 3) true 1 "reports" 1 "m" "dev" "chromium" true
        [mkStep 2 "click" none 1, mkStep 3 "click" none 1]).results.length = 2 ∧
    (runMacroCore (envFailOn 3) true 1 "reports" 1 "m" "dev" "chromium" true
        [mkStep 2 "click" none 1, mkStep 3 "click" none 1]).report.summary.total = 2 ∧
    (runMacroCore (envFailOn 3) true 1 "reports" 1 "m" "dev" "chromium" true
        [mkStep 2 "click" none 1, mkStep 3 "click" none 1]).report.summary.passed
      + (runMacroCore (envFailOn 3) true 1 "reports" 1 "m" "dev" "chromium" true
        [mkStep 2 "click" none 1, mkStep 3 "click" none 1]).report.summary.failed
      + (runMacroCore (envFailOn 3) true 1 "reports" 1 "m" "dev" "chromium" true
        [mkStep 2 "click" none 1, mkStep 3 "click" none 1]).report.summary.skipped
      = (runMacroCore (envFailOn 3) true 1 "reports" 1 "m" "dev" "chromium" true
        [mkStep 2 "click" none 1, mkStep 3 "click" none 1]).report.summary.total := by
  have h := run_total_accounting (envFailOn 3) true 1 "reports" 1 "m" "dev" "chromium" true
    [mkStep 2 "click" none 1, mkStep 3 "click" none 1] (by decide)
  simpa using h

/-- C9: re-deriving the aggregate summary from the persisted StepResults
alone (counting statuses and the result-list length) yields exactly the
summary counters computed live during execution and stored in the
report. -/
theorem summary_rederivable_from_results (env : PageEnv) (stop : Bool) (rid : Nat)
    (dir : String) (mid : Nat) (mname ename bname : String) (hl : Bool)
    (steps : List MacroStep) :
    countStatus .PASS (runMacroCore env stop rid dir mid mname ename bname hl steps).results
        = (runMacroCore env stop rid dir mid mname ename bname hl steps).report.summary.passed ∧
    countStatus .FAIL (runMacroCore env stop rid dir mid mname ename bname hl steps).results
        = (runMacroCore env stop rid dir mid mname ename bname hl steps).report.summary.failed ∧
    countStatus .SKIPPED (runMacroCore env stop rid dir mid mname ename bname hl steps).results
        = (runMacroCore env stop rid dir mid mname ename bname hl steps).report.summary.skipped ∧
    (runMacroCore env stop rid dir mid mname ename bname hl steps).results.length
        = (runMacroCore env stop rid dir mid mname ename bname hl steps).report.summary.total := by
  have hlen := runSteps_length env stop rid dir steps (initSummary steps) false
  have hc := runSteps_counts env stop rid dir steps (initSummary steps) false
  obtain ⟨h1, h2, h3, h4, h5⟩ := hc
  simp only [runMacroCore, initSummary] at *
  refine ⟨?_, ?_, ?_, ?_⟩ <;> simp_all

/-- C4: the terminal status of the run is "FAIL" exactly when some persisted
StepResult is FAIL (and "PASS" otherwise), and a trace artifact is recorded
— both in the artifacts pointer of the report and as an artifact row — exactly
when the terminal status is "FAIL"; on a passing run tracing is stopped
without saving a trace artifact. -/
theorem run_status_and_trace_iff_fail (env : PageEnv) (stop : Bool) (rid : Nat)
    (dir : String) (mid : Nat) (mname ename bname : String) (hl : Bool)
    (steps : List MacroStep) :
    ((runMacroCore env stop rid dir mid mname ename bname hl steps).report.status = "FAIL"
        ↔ ∃ r ∈ (runMacroCore env stop rid dir mid mname ename bname hl steps).results,
            r.status = .FAIL) ∧
    ((runMacroCore env stop rid dir mid mname ename bname hl steps).report.traceArtifact.isSome
        ↔ (runMacroCore env stop rid dir mid mname ename bname hl steps).report.status = "FAIL") ∧
    ((runMacroCore env stop rid dir mid mname ename bname hl steps).artifacts.any
          (fun a => a.type == ArtifactType.trace) = true
        ↔ (runMacroCore env stop rid dir mid mname ename bname hl steps).report.status = "FAIL") ∧
    ((runMacroCore env stop rid dir mid mname ename bname hl steps).report.status = "PASS"
        ∨ (runMacroCore env stop rid dir mid mname ename bname hl steps).report.status = "FAIL") := by
  have hflag := runSteps_flag env stop rid dir steps (initSummary steps) false
  have hart := runSteps_artifacts env stop rid dir steps (initSummary steps) false
  simp only [Bool.false_or] at hflag
  simp only [runMacroCore]
  cases hof : (runSteps env stop rid dir steps (initSummary steps) false).anyFailed with
  | false =>
    rw [hof] at hflag
    have hany := hflag.symm
    have hnofail : ¬ ∃ r ∈ (runSteps env stop rid dir steps (initSummary steps) false).results,
        r.status = .FAIL := by
      have h := List.any_eq_false.mp hany
      rintro ⟨r, hr, hs⟩
      exact h r hr (by simp [hs])
    simp only [if_neg (show ¬(false = true) by decide), List.append_nil]
    refine ⟨?_, ?_, ?_, ?_⟩
    · constructor
      · intro h; exact absurd h (by decide)
      · intro h; exact absurd h hnofail
    · simp
    · have h := List.all_eq_true.mp hart
      constructor
      · intro hx
        obtain ⟨a, ha, hta⟩ := List.any_eq_true.mp hx
        have hs := h a ha
        simp [beq_iff_eq] at hs hta
        rw [hs] at hta
        exact absurd hta (by decide)
      · intro hx; exact absurd hx (by decide)
    · simp
  | true =>
    rw [hof] at hflag
    have hfail : ∃ r ∈ (runSteps env stop rid dir steps (initSummary steps) false).results,
        r.status = .FAIL := by
      obtain ⟨r, hr, hs⟩ := List.any_eq_true.mp hflag.symm
      exact ⟨r, hr, by simpa [beq_iff_eq] using hs⟩
    simp only [if_pos (show (true = true) by rfl)]
    refine ⟨?_, ?_, ?_, ?_⟩
    · constructor
      · intro _; exact hfail
      · intro _; rfl
    · simp
    · simp [List.any_append]
    · simp

/-- C2: in a run with stopOnFail set, if the result at position k is the
first FAIL, then every later position j holds a SKIPPED result whose error
message is "not executed (stop-on-fail)" when step j was enabled and absent
when step j was disabled (the loop marks the whole remainder and halts). -/
theorem stop_on_fail_skips_remaining (env : PageEnv) (rid : Nat) (dir : String)
    (steps : List MacroStep) (sum : Summary) (fl : Bool) (k : Nat) (rk : StepResult)
    (hk : (runSteps env true rid dir steps sum fl).results[k]? = some rk)
    (hkF : rk.status = .FAIL)
    (hfirst : ∀ (i : Nat) (ri : StepResult), i < k →
        (runSteps env true rid dir steps sum fl).results[i]? = some ri →
        ri.status ≠ .FAIL) :
    ∀ (j : Nat) (sj : MacroStep), k < j → steps[j]? = some sj →
      ∃ r, (runSteps env true rid dir steps sum fl).results[j]? = some r ∧
        r.status = .SKIPPED ∧
        r.error_message = (if sj.enabled = 0 then none
                           else some "not executed (stop-on-fail)") := by
  revert hk hfirst
  induction steps generalizing sum fl k with
  | nil =>
    intro hk _
    rw [runSteps_nil] at hk
    simp at hk
  | cons s rest ih =>
    intro hk hfirst
    by_cases he : s.enabled = 0
    · rw [runSteps_cons_disabled env true rid dir s rest sum fl he] at hk hfirst ⊢
      cases k with
      | zero =>
        simp [disabledResult] at hk
        rw [← hk] at hkF
        simp at hkF
      | succ k2 =>
        intro j sj hkj hsj
        cases j with
        | zero => omega
        | succ j2 =>
          have hk2 : (runSteps env true rid dir rest
              { sum with skipped := sum.skipped + 1 } fl).results[k2]? = some rk := by
            simpa using hk
          have hfirst2 : ∀ (i : Nat) (ri : StepResult), i < k2 →
              (runSteps env true rid dir rest
                { sum with skipped := sum.skipped + 1 } fl).results[i]? = some ri →
              ri.status ≠ .FAIL := by
            intro i ri hi hri
            exact hfirst (i + 1) ri (by omega) (by simpa using hri)
          have hres := ih { sum with skipped := sum.skipped + 1 } fl k2 hk2 hfirst2
            j2 sj (by omega) (by simpa using hsj)
          simpa using hres
    · cases hex : execStep env s with
      | pass used =>
        rw [runSteps_cons_pass env true rid dir s rest sum fl used he hex] at hk hfirst ⊢
        cases k with
        | zero =>
          simp at hk
          rw [← hk] at hkF
          simp at hkF
        | succ k2 =>
          intro j sj hkj hsj
          cases j with
          | zero => omega
          | succ j2 =>
            have hk2 : (runSteps env true rid dir rest
                { sum with passed := sum.passed + 1 } fl).results[k2]? = some rk := by
              simpa using hk
            have hfirst2 : ∀ (i : Nat) (ri : StepResult), i < k2 →
                (runSteps env true rid dir rest
                  { sum with passed := sum.passed + 1 } fl).results[i]? = some ri →
                ri.status ≠ .FAIL := by
              intro i ri hi hri
              exact hfirst (i + 1) ri (by omega) (by simpa using hri)
            have hres := ih { sum with passed := sum.passed + 1 } fl k2 hk2 hfirst2
              j2 sj (by omega) (by simpa using hsj)
            simpa using hres
      | secretSkip used =>
        rw [runSteps_cons_secret env true rid dir s rest sum fl used he hex] at hk hfirst ⊢
        cases k with
        | zero =>
          simp at hk
          rw [← hk] at hkF
          simp at hkF
        | succ k2 =>
          intro j sj hkj hsj
          cases j with
          | zero => omega
          | succ j2 =>
            have hk2 : (runSteps env true rid dir rest
                { sum with skipped := sum.skipped + 1 } fl).results[k2]? = some rk := by
              simpa using hk
            have hfirst2 : ∀ (i : Nat) (ri : StepResult), i < k2 →
                (runSteps env true rid dir rest
                  { sum with skipped := sum.skipped + 1 } fl).results[i]? = some ri →
                ri.status ≠ .FAIL := by
              intro i ri hi hri
              exact hfirst (i + 1) ri (by omega) (by simpa using hri)
            have hres := ih { sum with skipped := sum.skipped + 1 } fl k2 hk2 hfirst2
              j2 sj (by omega) (by simpa using hsj)
            simpa using hres
      | failure msg =>
        rw [runSteps_cons_fail_stop env rid dir s rest sum fl msg he hex] at hk hfirst ⊢
        cases k with
        | zero =>
          intro j sj hkj hsj
          cases j with
          | zero => omega
          | succ j2 =>
            have hrest : rest[j2]? = some sj := by simpa using hsj
            refine ⟨stopSkipResult sj, ?_, stopSkipResult_status sj, ?_⟩
            · simp [markRest, List.getElem?_map, hrest]
            · unfold stopSkipResult disabledResult
              split <;> simp
        | succ k2 =>
          exact absurd rfl (hfirst 0
            { step_id := s.id, status := .FAIL, error_message := some msg,
              used_locator := none,
              screenshot_path := some (screenshotFile dir rid s.order_index) }
            (by omega) (by simp))

def stepsW : List MacroStep :=
  [mkStep 1 "click" none 1, mkStep 2 "click" none 1, mkStep 3 "click" none 0]

def frW : StepResult :=
  { step_id := 1, status := .FAIL, error_message := some "boom",
    used_locator := none, screenshot_path := some "reports/run-1-step-1.png" }

/-- Witness for C2: a three-step run whose first click fails under
stop-on-fail; the enabled second step is SKIPPED with the stop-on-fail
message and the disabled third step is SKIPPED with no message. -/
theorem stop_on_fail_skips_remaining_witness :
    (∃ r, (runSteps (envFailOn 1) true 1 "reports" stepsW
            (initSummary stepsW) false).results[1]? = some r ∧
        r.status = .SKIPPED ∧
        r.error_message = (if (mkStep 2 "click" none 1).enabled = 0 then none
                           else some "not executed (stop-on-fail)")) ∧
    (∃ r, (runSteps (envFailOn 1) true 1 "reports" stepsW
            (initSummary stepsW) false).results[2]? = some r ∧
        r.status = .SKIPPED ∧
        r.error_message = (if (mkStep 3 "click" none 0).enabled = 0 then none
                           else some "not executed (stop-on-fail)")) := by
  have h := stop_on_fail_skips_remaining (envFailOn 1) 1 "reports" stepsW
    (initSummary stepsW) false 0 frW (by decide) (by decide)
    (fun i ri hi _ => absurd hi (Nat.not_lt_zero i))
  exact ⟨h 1 (mkStep 2 "click" none 1) (by decide) (by decide),
         h 2 (mkStep 3 "click" none 0) (by decide) (by decide)⟩

def secretStep : MacroStep := mkStep 7 "type" (some "__SECRET__") 1

/-- Counterexample for C6: an enabled `type` step with value "__SECRET__"
whose locator does not resolve is recorded FAIL with "Locator not found"
(not SKIPPED); the failed counter increments and the run fails. -/
theorem secret_step_fails_when_locator_missing :
    execStep envNoHit secretStep = .failure "Locator not found" ∧
    (runSteps envNoHit true 1 "reports" [secretStep]
        (initSummary [secretStep]) false).results
      = [{ step_id := 7, status := .FAIL, error_message := some "Locator not found",
           used_locator := none, screenshot_path := some "reports/run-1-step-7.png" }] ∧
    (runSteps envNoHit true 1 "reports" [secretStep]
        (initSummary [secretStep]) false).summary.failed = 1 ∧
    (runSteps envNoHit true 1 "reports" [secretStep]
        (initSummary [secretStep]) false).summary.skipped = 0 ∧
    (runSteps envNoHit true 1 "reports" [secretStep]
        (initSummary [secretStep]) false).anyFailed = true := by
  decide

/-- C6 (amended): an enabled `type` step whose defaulted value is the
sentinel "__SECRET__" and whose locator resolves to an element passing the
visible/enabled check yields the secret-skip outcome: a SKIPPED result
with message "secret value skipped", the skipped counter incremented, the
loop continuing (for either stop-on-fail setting) and the failure flag
untouched. -/
theorem secret_step_skipped_after_resolution (env : PageEnv) (stop : Bool) (rid : Nat)
    (dir : String) (step : MacroStep) (rest : List MacroStep) (sum : Summary) (fl : Bool)
    (used : Locator)
    (he : ¬step.enabled = 0) (hty : step.action_type = "type")
    (hv : step.value.getD "" = "__SECRET__")
    (hfind : findLocator env step.locators = some used)
    (hint : env.interactable used = none) :
    execStep env step = .secretSkip used ∧
    (runSteps env stop rid dir (step :: rest) sum fl).results
      = { step_id := step.id, status := .SKIPPED,
          error_message := some "secret value skipped",
          used_locator := some used, screenshot_path := none }
        :: (runSteps env stop rid dir rest
              { sum with skipped := sum.skipped + 1 } fl).results ∧
    (runSteps env stop rid dir (step :: rest) sum fl).summary
      = (runSteps env stop rid dir rest
          { sum with skipped := sum.skipped + 1 } fl).summary ∧
    (runSteps env stop rid dir (step :: rest) sum fl).anyFailed
      = (runSteps env stop rid dir rest
          { sum with skipped := sum.skipped + 1 } fl).anyFailed := by
  have hlocne : step.locators ≠ [] := by
    intro h
    rw [h] at hfind
    simp [findLocator] at hfind
  have hexec : execStep env step = .secretSkip used := by
    simp [execStep, locatorStage, hty, hlocne, hfind, hint, hv]
  refine ⟨hexec, ?_, ?_, ?_⟩ <;>
    rw [runSteps_cons_secret env stop rid dir step rest sum fl used he hexec]

/-- Witness for C6 (amended) at a concrete resolving secret step. -/
theorem secret_step_skipped_after_resolution_witness :
    execStep envAllPass secretStep = .secretSkip locA ∧
    (runSteps envAllPass true 1 "reports" (secretStep :: []) (initSummary [secretStep])
        false).results
      = { step_id := secretStep.id, status := .SKIPPED,
          error_message := some "secret value skipped",
          used_locator := some locA, screenshot_path := none }
        :: (runSteps envAllPass true 1 "reports" []
              { initSummary [secretStep] with
                  skipped := (initSummary [secretStep]).skipped + 1 } false).results ∧
    (runSteps envAllPass true 1 "reports" (secretStep :: []) (initSummary [secretStep])
        false).summary
      = (runSteps envAllPass true 1 "reports" []
          { initSummary [secretStep] with
              skipped := (initSummary [secretStep]).skipped + 1 } false).summary ∧
    (runSteps envAllPass true 1 "reports" (secretStep :: []) (initSummary [secretStep])
        false).anyFailed
      = (runSteps envAllPass true 1 "reports" []
          { initSummary [secretStep] with
              skipped := (initSummary [secretStep]).skipped + 1 } false).anyFailed :=
  secret_step_skipped_after_resolution envAllPass true 1 "reports" secretStep []
    (initSummary [secretStep]) false locA (by decide) (by decide) (by decide)
    (by decide) (by decide)

/-- Counterexample for C7: with no envs.json file present, an unknown
environment name produces no configuration error; the run proceeds (the
browser is launched), no error is printed and the exit code is zero — it
does not abort. -/
theorem unknown_env_no_file_silently_proceeds :
    (loadEnvConfig .absent "staging").error = none ∧
    (runMacroModel .absent (some "staging") (some macroW) [mkStep 2 "click" none 1]
        envAllPass true none none false 1 "reports").launched = true ∧
    (runMacroModel .absent (some "staging") (some macroW) [mkStep 2 "click" none 1]
        envAllPass true none none false 1 "reports").errorMsg = none ∧
    (runMacroModel .absent (some "staging") (some macroW) [mkStep 2 "click" none 1]
        envAllPass true none none false 1 "reports").exitNonZero = false := by
  decide

/-- C7 (amended): when envs.json exists and parses but does not define the
requested environment name, the run aborts with the configuration error
naming the environment, before launching the browser and before any step
runs, with a non-zero exit code; when the file is absent the run instead
falls back silently to built-in defaults. -/
theorem unknown_env_with_file_aborts (entries : List (String × EnvConfig))
    (envName : String) (macroRow : Option MacroRec) (steps : List MacroStep)
    (env : PageEnv) (stop : Bool) (bu : Option String) (hop : Option Bool)
    (nav : Bool) (rid : Nat) (dir : String)
    (hmiss : lookupEnv entries envName = none) :
    (runMacroModel (.parsed entries) (some envName) macroRow steps env stop
        bu hop nav rid dir).errorMsg
      = some ("env " ++ envName ++ " not found in envs.json") ∧
    (runMacroModel (.parsed entries) (some envName) macroRow steps env stop
        bu hop nav rid dir).launched = false ∧
    (runMacroModel (.parsed entries) (some envName) macroRow steps env stop
        bu hop nav rid dir).out = none ∧
    (runMacroModel (.parsed entries) (some envName) macroRow steps env stop
        bu hop nav rid dir).exitNonZero = true := by
  simp [runMacroModel, loadEnvConfig, hmiss]

def cfgW : EnvConfig :=
  { baseURL := none, browser := none, headless := none,
    timeoutStep := none, timeoutGlobal := none }

/-- Witness for C7 (amended): envs.json defining only "dev", requested
environment "staging". -/
theorem unknown_env_with_file_aborts_witness :
    (runMacroModel (.parsed [("dev", cfgW)]) (some "staging") (some macroW)
        [mkStep 2 "click" none 1] envAllPass true none none false 1 "reports").errorMsg
      = some ("env " ++ "staging" ++ " not found in envs.json") ∧
    (runMacroModel (.parsed [("dev", cfgW)]) (some "staging") (some macroW)
        [mkStep 2 "click" none 1] envAllPass true none none false 1 "reports").launched
      = false ∧
    (runMacroModel (.parsed [("dev", cfgW)]) (some "staging") (some macroW)
        [mkStep 2 "click" none 1] envAllPass true none none false 1 "reports").out
      = none ∧
    (runMacroModel (.parsed [("dev", cfgW)]) (some "staging") (some macroW)
        [mkStep 2 "click" none 1] envAllPass true none none false 1 "reports").exitNonZero
      = true :=
  unknown_env_with_file_aborts [("dev", cfgW)] "staging" (some macroW)
    [mkStep 2 "click" none 1] envAllPass true none none false 1 "reports" (by decide)

/-- C8: the code contradicts the release-on-every-exit-path requirement:
when a base URL is configured and the initial navigation rejects, runMacro
exits with the browser launched but never closed (no try/finally guards
the loop), while the normal path — including a stop-on-fail early halt —
does close the browser session and tracing resource. -/
theorem initial_nav_failure_leaves_browser_open :
    ((runMacroModel .absent (some "dev") (some macroW) [mkStep 2 "click" none 1]
        envAllPass true (some "http://base") none true 1 "reports").launched = true ∧
      (runMacroModel .absent (some "dev") (some macroW) [mkStep 2 "click" none 1]
        envAllPass true (some "http://base") none true 1 "reports").closed = false) ∧
    ((runMacroModel .absent (some "dev") (some macroW) [mkStep 2 "click" none 1]
        (envFailOn 2) true none none false 1 "reports").launched = true ∧
      (runMacroModel .absent (some "dev") (some macroW) [mkStep 2 "click" none 1]
        (envFailOn 2) true none none false 1 "reports").closed = true ∧
      (runMacroModel .absent (some "dev") (some macroW) [mkStep 2 "click" none 1]
        (envFailOn 2) true none none false 1 "reports").exitNonZero = true) := by
  decide

/-- C10: in the assembled report, a step for which no persisted StepResult
carries its id is still present (the report has one entry per step) with
status "UNKNOWN" — a value outside {PASS, FAIL, SKIPPED} — and null error
message and screenshot path. -/
theorem report_unknown_for_missing_result (results : List StepResult)
    (steps : List MacroStep) (s : MacroStep)
    (hs : s ∈ steps) (hmiss : lookupById results s.id = none) :
    (buildReportStep results s).status = "UNKNOWN" ∧
    (buildReportStep results s).error_message = none ∧
    (buildReportStep results s).screenshot_path = none ∧
    buildReportStep results s ∈ steps.map (buildReportStep results) ∧
    (steps.map (buildReportStep results)).length = steps.length ∧
    ("UNKNOWN" : String) ≠ "PASS" ∧ ("UNKNOWN" : String) ≠ "FAIL" ∧
    ("UNKNOWN" : String) ≠ "SKIPPED" := by
  refine ⟨?_, ?_, ?_, List.mem_map_of_mem _ hs, List.length_map _ _,
    by decide, by decide, by decide⟩ <;>
    simp [buildReportStep, hmiss]

/-- Witness for C10: one step, empty persisted results. -/
theorem report_unknown_for_missing_result_witness :
    (buildReportStep [] (mkStep 2 "click" none 1)).status = "UNKNOWN" ∧
    (buildReportStep [] (mkStep 2 "click" none 1)).error_message = none ∧
    (buildReportStep [] (mkStep 2 "click" none 1)).screenshot_path = none ∧
    buildReportStep [] (mkStep 2 "click" none 1)
      ∈ [mkStep 2 "click" none 1].map (buildReportStep []) ∧
    ([mkStep 2 "click" none 1].map (buildReportStep [])).length
      = [mkStep 2 "click" none 1].length ∧
    ("UNKNOWN" : String) ≠ "PASS" ∧ ("UNKNOWN" : String) ≠ "FAIL" ∧
    ("UNKNOWN" : String) ≠ "SKIPPED" :=
  report_unknown_for_missing_result [] [mkStep 2 "click" none 1]
    (mkStep 2 "click" none 1) (by simp) (by decide)

end AutoTester
